import Mathlib

/-!
A shallow embedding of the post scheduling and publication subsystem of the
analytics backend (`app/utils/scheduler_service.py` together with the `Post`
model of `app/models/post.py`).

Modelling conventions:
* Timestamps are natural numbers: minutes since 0001-01-01 00:00 in the
  proleptic Gregorian calendar (the resolution the service works at — it
  zeroes seconds and microseconds when composing a schedule time).
* The database session plus commit is modelled by explicit state passing: an
  operation receives the committed store (a list of posts) and returns the
  store after its commit.  Validation-failure paths return before any write,
  exactly as the Python functions do.
* `datetime.utcnow()` is modelled by a `now : Nat` parameter.  Within one
  sweep cycle the handful of `utcnow()` calls are identified with the one
  cycle timestamp `now`.
* The LinkedIn publication call (`LinkedInAPISimulator.publish_post`) is a
  parameter `api` returning success, failure (the simulated 5% rejection,
  returned as `False`), or a raised exception with a message.
* Fallibility of `db.commit()` at the end of a sweep cycle is a `commitOk`
  flag; `False` means the commit raises and the service rolls back.
-/

/-- `PostStatus` from `app/models/post.py`: the post lifecycle enum. -/
inductive PostStatus
  | draft
  | scheduled
  | published
  | failed
deriving DecidableEq, Repr

/-- The string value of each `PostStatus` member (`draft = "draft"`, ...). -/
def PostStatus.value : PostStatus → String
  | .draft => "draft"
  | .scheduled => "scheduled"
  | .published => "published"
  | .failed => "failed"

/-- The `Post` model fields the scheduling subsystem reads or writes
(`app/models/post.py`).  `linkedin_post_id` is the external post id. -/
structure Post where
  id : Nat
  title : String
  content : String
  status : PostStatus
  author_id : Nat
  scheduled_for : Option Nat
  published_at : Option Nat
  linkedin_post_id : Option String
  error_message : Option String
deriving DecidableEq, Repr

/-- The committed post store, in stable row order. -/
abbrev PostStore := List Post

/-- `db.query(Post).filter(Post.id == post_id).first()`. -/
def findPost (store : PostStore) (post_id : Nat) : Option Post :=
  store.find? (fun p => decide (p.id = post_id))

/-- Committing an in-session mutation of the row with `p.id = upd.id`: the
first row with that id is replaced, every other row is untouched. -/
def updatePost : PostStore → Post → PostStore
  | [], _ => []
  | p :: rest, upd => if p.id = upd.id then upd :: rest else p :: updatePost rest upd

/-- Gregorian leap-year test, as in Python's `calendar`/`datetime`. -/
def isLeap (y : Nat) : Bool :=
  (y % 4 == 0 && y % 100 != 0) || (y % 400 == 0)

/-- Days in month `m` (1-12) of year `y`. -/
def daysInMonth (y m : Nat) : Nat :=
  if m = 2 then (if isLeap y then 29 else 28)
  else if m = 4 ∨ m = 6 ∨ m = 9 ∨ m = 11 then 30
  else 31

/-- Days in the years before year `y` (proleptic Gregorian, year 1 first). -/
def daysBeforeYear (y : Nat) : Nat :=
  365 * (y - 1) + (y - 1) / 4 - (y - 1) / 100 + (y - 1) / 400

/-- Days in the months of year `y` before month `m`. -/
def daysBeforeMonth (y m : Nat) : Nat :=
  ((List.range (m - 1)).map (fun i => daysInMonth y (i + 1))).foldl (· + ·) 0

/-- The timestamp (minutes since 0001-01-01 00:00) of `y-m-d hour:minute`. -/
def toTimestamp (y m d hour minute : Nat) : Nat :=
  (daysBeforeYear y + daysBeforeMonth y m + (d - 1)) * 1440 + hour * 60 + minute

/-- Numeric value of a digit string. -/
def digitsVal (cs : List Char) : Nat :=
  cs.foldl (fun acc c => acc * 10 + (c.toNat - 48)) 0

/-- One numeric field of the `%Y-%m-%d` pattern: non-empty, at most
`maxLen` digits. -/
def parseField (cs : List Char) (maxLen : Nat) : Option Nat :=
  if cs ≠ [] ∧ cs.length ≤ maxLen ∧ cs.all Char.isDigit then some (digitsVal cs)
  else none

/-- Split a character list at every dash, keeping empty groups. -/
def splitDashes : List Char → List (List Char)
  | [] => [[]]
  | c :: rest =>
    match splitDashes rest with
    | [] => if c = '-' then [[], []] else [[c]]
    | g :: gs => if c = '-' then [] :: g :: gs else (c :: g) :: gs

/-- `datetime.strptime(date, '%Y-%m-%d')`: `none` models the `ValueError`.
Validates digit counts, month range and day-of-month range (leap years
included), as CPython's `strptime` plus the `datetime` constructor do. -/
def strptimeYmd (date : String) : Option (Nat × Nat × Nat) :=
  match splitDashes date.toList with
  | [ys, ms, ds] =>
    match parseField ys 4, parseField ms 2, parseField ds 2 with
    | some y, some m, some d =>
      if 1 ≤ y ∧ y ≤ 9999 ∧ 1 ≤ m ∧ m ≤ 12 ∧ 1 ≤ d ∧ d ≤ daysInMonth y m then
        some (y, m, d)
      else none
    | _, _, _ => none
  | _ => none

/-- The `try` block of `schedule_post` (`scheduler_service.py` lines 155-159):
`strptime` followed by `.replace(hour=hour, minute=minute, second=0,
microsecond=0)`.  Either step may raise `ValueError` (modelled as `none`); in
particular `replace` raises when `hour ∉ [0,23]` or `minute ∉ [0,59]`, so an
out-of-range hour or minute already fails here. -/
def composeDatetime (date : String) (hour minute : Int) : Option Nat :=
  match strptimeYmd date with
  | none => none
  | some (y, m, d) =>
    if 0 ≤ hour ∧ hour ≤ 23 ∧ 0 ≤ minute ∧ minute ≤ 59 then
      some (toTimestamp y m d hour.toNat minute.toNat)
    else none

/-- `validate_schedule_time` (line 136): the scheduled time is strictly in
the future. -/
def validate_schedule_time (scheduled_for now : Nat) : Bool :=
  decide (now < scheduled_for)

/-- The distinct validation-failure exits of `schedule_post`, tagged by the
branch that produced them; `message` below recovers the exact strings. -/
inductive SchedErr
  | notFound
  | invalidTransition (cur : PostStatus)
  | invalidDate
  | hourOutOfRange
  | minuteOutOfRange
  | inPast
deriving DecidableEq, Repr

/-- The `"message"` string `schedule_post` returns for each failure exit. -/
def SchedErr.message : SchedErr → String
  | .notFound => "Post not found"
  | .invalidTransition cur => "Cannot schedule post with status: " ++ cur.value
  | .invalidDate => "Invalid date format. Use YYYY-MM-DD"
  | .hourOutOfRange => "Hour must be between 0-23"
  | .minuteOutOfRange => "Minute must be between 0-59"
  | .inPast => "Cannot schedule post in the past"

/-- Result of `schedule_post`: the store after the call (unchanged on every
failure exit) and the outcome dict (`success`/`message`, plus the refreshed
post on success). -/
structure SchedResult where
  store : PostStore
  outcome : Except SchedErr Post
deriving Repr

/-- `schedule_post` (`scheduler_service.py` lines 140-187), with the checks in
source order: lookup, status check, `strptime`+`replace` (whose `ValueError`
is answered with the date-format message), the explicit hour and minute range
checks, the future check, then the mutation and commit. -/
def schedule_post (store : PostStore) (now : Nat) (post_id : Nat)
    (date : String) (hour minute : Int) : SchedResult :=
  match findPost store post_id with
  | none => ⟨store, Except.error SchedErr.notFound⟩
  | some post =>
    if post.status ≠ PostStatus.draft ∧ post.status ≠ PostStatus.scheduled then
      ⟨store, Except.error (SchedErr.invalidTransition post.status)⟩
    else
      match composeDatetime date hour minute with
      | none => ⟨store, Except.error SchedErr.invalidDate⟩
      | some ts =>
        if ¬(0 ≤ hour ∧ hour ≤ 23) then ⟨store, Except.error SchedErr.hourOutOfRange⟩
        else if ¬(0 ≤ minute ∧ minute ≤ 59) then ⟨store, Except.error SchedErr.minuteOutOfRange⟩
        else if ¬(validate_schedule_time ts now = true) then ⟨store, Except.error SchedErr.inPast⟩
        else
          let upd := { post with scheduled_for := some ts,
                                 status := PostStatus.scheduled,
                                 error_message := none }
          ⟨updatePost store upd, Except.ok upd⟩

/-- The failure exits of `unschedule_post`. -/
inductive UnschedErr
  | notFound
  | notScheduled
deriving DecidableEq, Repr

/-- Result of `unschedule_post`, as for `schedule_post`. -/
structure UnschedResult where
  store : PostStore
  outcome : Except UnschedErr Post
deriving Repr

/-- `unschedule_post` (`scheduler_service.py` lines 189-209): revert a
`scheduled` post to `draft`, clearing only `scheduled_for`. -/
def unschedule_post (store : PostStore) (post_id : Nat) : UnschedResult :=
  match findPost store post_id with
  | none => ⟨store, Except.error UnschedErr.notFound⟩
  | some post =>
    if post.status ≠ PostStatus.scheduled then
      ⟨store, Except.error UnschedErr.notScheduled⟩
    else
      let upd := { post with status := PostStatus.draft, scheduled_for := none }
      ⟨updatePost store upd, Except.ok upd⟩

/-- Outcome of one `LinkedInAPISimulator.publish_post` call as observed by
`process_due_posts`: `True`, `False`, or a raised exception. -/
inductive PublishResult
  | success
  | failure
  | error (msg : String)
deriving DecidableEq, Repr

/-- The publication collaborator: `(post.id, post.title, post.content)` to an
outcome. -/
abbrev PublishApi := Nat → String → String → PublishResult

/-- The due-post query predicate (`scheduler_service.py` lines 50-55):
`status == SCHEDULED AND scheduled_for <= current_time` (a SQL `NULL`
`scheduled_for` never satisfies the comparison). -/
def isDue (now : Nat) (p : Post) : Bool :=
  decide (p.status = PostStatus.scheduled) &&
    (match p.scheduled_for with
     | some t => decide (t ≤ now)
     | none => false)

/-- The generated external id
`f"linkedin_{post.id}_{int(datetime.utcnow().timestamp())}"` (line 75). -/
def linkedinId (post_id now : Nat) : String :=
  "linkedin_" ++ toString post_id ++ "_" ++ toString now

/-- The body of the per-post `try` (lines 65-86): the publish call, then the
success / failure / exception handling; the second component is the
contribution to `processed` (the `+= 1` sits inside the `try`, so a raised
exception skips it). -/
def processOnePost (api : PublishApi) (now : Nat) (p : Post) : Post × Nat :=
  match api p.id p.title p.content with
  | PublishResult.success =>
      ({ p with status := PostStatus.published,
                published_at := some now,
                linkedin_post_id := some (linkedinId p.id now) }, 1)
  | PublishResult.failure =>
      ({ p with error_message := some ("Failed to publish to LinkedIn") }, 1)
  | PublishResult.error msg =>
      ({ p with error_message := some msg }, 0)

/-- What the loop leaves in the session for one row: due rows get their
per-post outcome, all other rows are untouched. -/
def sweepStep (api : PublishApi) (now : Nat) (p : Post) : Post :=
  if isDue now p then (processOnePost api now p).1 else p

/-- The `processed` counter over the due list: every iteration increments,
except one ending in a raised exception. -/
def countProcessed (api : PublishApi) : List Post → Nat
  | [] => 0
  | p :: rest =>
    match api p.id p.title p.content with
    | PublishResult.error _ => countProcessed api rest
    | _ => countProcessed api rest + 1

/-- `PostSchedulerService.process_due_posts` (lines 42-99): query the due
posts; if none, return 0 with nothing written; otherwise mutate the due rows
in session, then commit them all at once — a failing commit is caught by the
outer handler, which rolls the session back and returns 0. -/
def process_due_posts (store : PostStore) (now : Nat) (api : PublishApi)
    (commitOk : Bool) : PostStore × Nat :=
  let due := store.filter (isDue now)
  if due.isEmpty then (store, 0)
  else if commitOk then (store.map (sweepStep api now), countProcessed api due)
  else (store, 0)

/-- The invariant of spec §3: `scheduled_for` is set iff the status is
`scheduled`. -/
def schedInvariant (p : Post) : Prop :=
  p.scheduled_for ≠ none ↔ p.status = PostStatus.scheduled

instance (p : Post) : Decidable (schedInvariant p) := by
  unfold schedInvariant; infer_instance

/-- Whether the loop body for `p` runs to its `processed += 1` — false exactly
when the publish call raises. -/
def attemptCounted (api : PublishApi) (p : Post) : Bool :=
  match api p.id p.title p.content with
  | PublishResult.error _ => false
  | _ => true

/-- A draft post, for concrete instantiations. -/
def draftPost : Post :=
  { id := 1, title := "Hello", content := "World", status := PostStatus.draft,
    author_id := 7, scheduled_for := none, published_at := none,
    linkedin_post_id := none, error_message := none }

/-- A published post, for concrete instantiations. -/
def publishedPost : Post :=
  { draftPost with id := 2, status := PostStatus.published, published_at := some 100 }

/-- A scheduled post due at time 5, carrying the error message of an earlier
failed publish attempt. -/
def schedPost : Post :=
  { draftPost with id := 3, status := PostStatus.scheduled, scheduled_for := some 5,
                   error_message := some ("previous failure") }

/-- `schedPost` after unscheduling. -/
def unschedDemo : Post :=
  { schedPost with status := PostStatus.draft, scheduled_for := none }

/-- `unschedDemo` after a successful reschedule to 2099-01-01 09:00. -/
def reschedDemo : Post :=
  { unschedDemo with status := PostStatus.scheduled, scheduled_for := some 1103442300,
                     error_message := none }

/-- A publication collaborator that always succeeds. -/
def alwaysSuccessApi : PublishApi := fun _ _ _ => PublishResult.success

/-- A publication collaborator that always returns `False`. -/
def alwaysFailApi : PublishApi := fun _ _ _ => PublishResult.failure

/-- A publication collaborator that always raises. -/
def boomApi : PublishApi := fun _ _ _ => PublishResult.error ("boom")

/-- Membership in a committed single-row update: a row of the new store is an
old row or the updated row. -/
theorem mem_updatePost {store : PostStore} {upd q : Post}
    (h : q ∈ updatePost store upd) : q ∈ store ∨ q = upd := by
  induction store with
  | nil => simp [updatePost] at h
  | cons p rest ih =>
    by_cases hid : p.id = upd.id
    · rw [updatePost, if_pos hid] at h
      rcases List.mem_cons.mp h with h | h
      · exact Or.inr h
      · exact Or.inl (List.mem_cons_of_mem _ h)
    · rw [updatePost, if_neg hid] at h
      rcases List.mem_cons.mp h with h | h
      · exact Or.inl (h ▸ List.mem_cons_self _ _)
      · rcases ih h with h | h
        · exact Or.inl (List.mem_cons_of_mem _ h)
        · exact Or.inr h

/-- Exhaustive description of `schedule_post`: either some validation failed,
the store is untouched and an error is returned, or every check passed and
the found post is rescheduled. -/
theorem schedule_post_cases (store : PostStore) (now post_id : Nat) (date : String)
    (hour minute : Int) :
    ((schedule_post store now post_id date hour minute).store = store ∧
      ∃ e, (schedule_post store now post_id date hour minute).outcome = Except.error e) ∨
    (∃ post ts, findPost store post_id = some post ∧
      (post.status = PostStatus.draft ∨ post.status = PostStatus.scheduled) ∧
      composeDatetime date hour minute = some ts ∧
      now < ts ∧
      schedule_post store now post_id date hour minute =
        ⟨updatePost store { post with scheduled_for := some ts,
                                      status := PostStatus.scheduled,
                                      error_message := none },
         Except.ok { post with scheduled_for := some ts,
                               status := PostStatus.scheduled,
                               error_message := none }⟩) := by
  unfold schedule_post
  split
  · exact Or.inl ⟨rfl, _, rfl⟩
  next post hfind =>
    split
    · exact Or.inl ⟨rfl, _, rfl⟩
    next hst =>
      split
      · exact Or.inl ⟨rfl, _, rfl⟩
      next ts hcomp =>
        split
        · exact Or.inl ⟨rfl, _, rfl⟩
        next hh =>
          split
          · exact Or.inl ⟨rfl, _, rfl⟩
          next hm =>
            split
            · exact Or.inl ⟨rfl, _, rfl⟩
            next hfut =>
              refine Or.inr ⟨post, ts, hfind, ?_, hcomp, ?_, rfl⟩
              · rcases not_and_or.mp hst with h | h
                · exact Or.inl (not_not.mp h)
                · exact Or.inr (not_not.mp h)
              · have := not_not.mp hfut
                simpa [validate_schedule_time] using this

/-- Exhaustive description of `unschedule_post`: either a validation failed
with the store untouched, or the found `scheduled` post is reverted to
`draft`, only `status` and `scheduled_for` changing. -/
theorem unschedule_post_cases (store : PostStore) (post_id : Nat) :
    ((unschedule_post store post_id).store = store ∧
      ∃ e, (unschedule_post store post_id).outcome = Except.error e) ∨
    (∃ post, findPost store post_id = some post ∧
      post.status = PostStatus.scheduled ∧
      unschedule_post store post_id =
        ⟨updatePost store { post with status := PostStatus.draft, scheduled_for := none },
         Except.ok { post with status := PostStatus.draft, scheduled_for := none }⟩) := by
  unfold unschedule_post
  split
  · exact Or.inl ⟨rfl, _, rfl⟩
  next post hfind =>
    split
    · exact Or.inl ⟨rfl, _, rfl⟩
    next hst => exact Or.inr ⟨post, hfind, not_not.mp hst, rfl⟩

/-- Unfolding of the due-post query predicate. -/
theorem isDue_iff {now : Nat} {p : Post} :
    isDue now p = true ↔
      p.status = PostStatus.scheduled ∧ ∃ t, p.scheduled_for = some t ∧ t ≤ now := by
  unfold isDue
  cases p.scheduled_for <;> simp

/-- A sweep cycle whose final commit raises changes nothing and reports zero
processed. -/
theorem process_due_posts_commit_fail_eq (store : PostStore) (now : Nat) (api : PublishApi) :
    process_due_posts store now api false = (store, 0) := by
  cases hfe : (store.filter (isDue now)).isEmpty <;> simp [process_due_posts, hfe]

/-- A sweep cycle that found no due post changes nothing and reports zero. -/
theorem process_due_posts_no_due (store : PostStore) (now : Nat) (api : PublishApi)
    (commitOk : Bool) (h : ∀ p ∈ store, isDue now p = false) :
    process_due_posts store now api commitOk = (store, 0) := by
  have hfe : store.filter (isDue now) = [] :=
    List.filter_eq_nil_iff.mpr (fun a ha => by simp [h a ha])
  unfold process_due_posts
  rw [hfe]
  rfl

/-- The due query is non-empty as soon as one member of the store is due. -/
theorem filter_due_not_empty {store : PostStore} {now : Nat} {p : Post}
    (hp : p ∈ store) (hdue : isDue now p = true) :
    (store.filter (isDue now)).isEmpty = false := by
  have hmem : p ∈ store.filter (isDue now) := List.mem_filter.mpr ⟨hp, hdue⟩
  cases hfe : store.filter (isDue now) with
  | nil => rw [hfe] at hmem; simp at hmem
  | cons a l => rfl

/-- A sweep cycle with at least one due post and a successful commit: the
store is mapped row-by-row through `sweepStep` and the loop counter is
returned. -/
theorem process_due_posts_run (store : PostStore) (now : Nat) (api : PublishApi)
    (h : (store.filter (isDue now)).isEmpty = false) :
    process_due_posts store now api true =
      (store.map (sweepStep api now), countProcessed api (store.filter (isDue now))) := by
  simp [process_due_posts, h]

/-- Row `i` of the post-cycle store, when the cycle ran and committed. -/
theorem process_due_posts_getElem? (store : PostStore) (now : Nat) (api : PublishApi)
    {q : Post} {i : Nat} (hq : store[i]? = some q)
    (h : (store.filter (isDue now)).isEmpty = false) :
    (process_due_posts store now api true).1[i]? = some (sweepStep api now q) := by
  rw [process_due_posts_run store now api h]
  show (store.map (sweepStep api now))[i]? = _
  rw [List.getElem?_map, hq]
  rfl

/-- A non-due row is left exactly as it was by `sweepStep`. -/
theorem sweepStep_not_due {api : PublishApi} {now : Nat} {p : Post}
    (h : isDue now p = false) : sweepStep api now p = p := by
  unfold sweepStep
  rw [h]
  rfl

/-- The generated external id is never the empty string. -/
theorem linkedinId_ne_empty (post_id now : Nat) : linkedinId post_id now ≠ "" := by
  intro h
  have hd := congrArg String.data h
  rw [linkedinId] at hd
  simp [String.data_append] at hd

/-- A successfully composed datetime certifies that hour and minute were in
range — `replace` would have raised otherwise. -/
theorem composeDatetime_ranges {date : String} {hour minute : Int} {ts : Nat}
    (h : composeDatetime date hour minute = some ts) :
    (0 ≤ hour ∧ hour ≤ 23) ∧ (0 ≤ minute ∧ minute ≤ 59) := by
  unfold composeDatetime at h
  split at h
  · exact absurd h (by simp)
  · split at h
    next hc => exact ⟨⟨hc.1, hc.2.1⟩, ⟨hc.2.2.1, hc.2.2.2⟩⟩
    · exact absurd h (by simp)

/-- The explicit hour/minute range checks of `schedule_post` are dead code:
these two error exits are unreachable for every input, because an
out-of-range hour or minute already makes the `replace` call raise inside the
date-parsing `try`. -/
theorem schedule_post_no_range_error (store : PostStore) (now post_id : Nat)
    (date : String) (hour minute : Int) :
    (schedule_post store now post_id date hour minute).outcome ≠
        Except.error SchedErr.hourOutOfRange ∧
    (schedule_post store now post_id date hour minute).outcome ≠
        Except.error SchedErr.minuteOutOfRange := by
  unfold schedule_post
  split
  · exact ⟨by simp, by simp⟩
  next post hfind =>
    split
    · exact ⟨by simp, by simp⟩
    next hst =>
      split
      · exact ⟨by simp, by simp⟩
      next ts hcomp =>
        have hr := composeDatetime_ranges hcomp
        rw [if_neg (not_not.mpr hr.1), if_neg (not_not.mpr hr.2)]
        split
        · exact ⟨by simp, by simp⟩
        · exact ⟨by simp, by simp⟩

/-- The post-cycle store is either untouched or the row-wise sweep image. -/
theorem process_due_posts_store_cases (store : PostStore) (now : Nat)
    (api : PublishApi) (commitOk : Bool) :
    (process_due_posts store now api commitOk).1 = store ∨
    (process_due_posts store now api commitOk).1 = store.map (sweepStep api now) := by
  cases hfe : (store.filter (isDue now)).isEmpty <;> cases commitOk <;>
    simp [process_due_posts, hfe]

/-- A due row whose publish call succeeds gets the success mutation. -/
theorem sweepStep_success {api : PublishApi} {now : Nat} {p : Post}
    (hdue : isDue now p = true)
    (hapi : api p.id p.title p.content = PublishResult.success) :
    sweepStep api now p =
      { p with status := PostStatus.published, published_at := some now,
               linkedin_post_id := some (linkedinId p.id now) } := by
  simp [sweepStep, processOnePost, hdue, hapi]

/-- A due row whose publish call returns `False` only gets the error
message. -/
theorem sweepStep_failure {api : PublishApi} {now : Nat} {p : Post}
    (hdue : isDue now p = true)
    (hapi : api p.id p.title p.content = PublishResult.failure) :
    sweepStep api now p =
      { p with error_message := some ("Failed to publish to LinkedIn") } := by
  simp [sweepStep, processOnePost, hdue, hapi]

/-- A due row whose publish call raises only gets the exception text. -/
theorem sweepStep_error {api : PublishApi} {now : Nat} {p : Post} {msg : String}
    (hdue : isDue now p = true)
    (hapi : api p.id p.title p.content = PublishResult.error msg) :
    sweepStep api now p = { p with error_message := some msg } := by
  simp [sweepStep, processOnePost, hdue, hapi]

/-- The sweep preserves the forward direction of the invariant: a row that is
still `scheduled` afterwards still has its `scheduled_for`. -/
theorem sweepStep_scheduled_imp {api : PublishApi} {now : Nat} {q : Post}
    (hq : schedInvariant q)
    (hsc : (sweepStep api now q).status = PostStatus.scheduled) :
    (sweepStep api now q).scheduled_for ≠ none := by
  cases hd : isDue now q with
  | false =>
    rw [sweepStep_not_due hd] at hsc ⊢
    exact hq.mpr hsc
  | true =>
    rcases isDue_iff.mp hd with ⟨hqs, t, hqt, hle⟩
    cases ha : api q.id q.title q.content with
    | success => rw [sweepStep_success hd ha] at hsc; exact absurd hsc (by simp)
    | failure => rw [sweepStep_failure hd ha]; simp [hqt]
    | error msg => rw [sweepStep_error hd ha]; simp [hqt]

/-- The loop counter counts exactly the due rows whose publish call did not
raise. -/
theorem countProcessed_eq_length_filter (api : PublishApi) (l : List Post) :
    countProcessed api l = (l.filter (attemptCounted api)).length := by
  induction l with
  | nil => rfl
  | cons p rest ih =>
    simp only [countProcessed, List.filter_cons]
    cases h : api p.id p.title p.content <;>
      simp [attemptCounted, h, ih]

/-- C3: for every input on which any validation of `schedule_post` fails —
unknown post id, status neither draft nor scheduled, invalid date or
out-of-range hour/minute (the composed datetime raises), or a composed
timestamp not strictly in the future — the call returns a failure and the
post store is left completely unchanged: every failure exit precedes the
write. -/
theorem C3_schedule_validation_failure_no_mutation
    (store : PostStore) (now post_id : Nat) (date : String) (hour minute : Int)
    (hbad : findPost store post_id = none ∨
       (∃ post, findPost store post_id = some post ∧
          post.status ≠ PostStatus.draft ∧ post.status ≠ PostStatus.scheduled) ∨
       composeDatetime date hour minute = none ∨
       (∃ ts, composeDatetime date hour minute = some ts ∧ ¬ now < ts)) :
    (∃ e, (schedule_post store now post_id date hour minute).outcome = Except.error e) ∧
    (schedule_post store now post_id date hour minute).store = store := by
  rcases schedule_post_cases store now post_id date hour minute with
    ⟨hs, e, he⟩ | ⟨post, ts, hfind, hst, hcomp, hfut, heq⟩
  · exact ⟨⟨e, he⟩, hs⟩
  · exfalso
    rcases hbad with h | ⟨post2, hf2, hd2, hs2⟩ | h | ⟨ts2, hc2, hf2⟩
    · rw [h] at hfind; exact Option.noConfusion hfind
    · rw [hf2] at hfind
      injection hfind with h3
      subst h3
      rcases hst with h4 | h4
      · exact hd2 h4
      · exact hs2 h4
    · rw [h] at hcomp; exact Option.noConfusion hcomp
    · rw [hc2] at hcomp
      injection hcomp with h3
      subst h3
      exact hf2 hfut

/-- Witness for C3 at a concrete failing input (unknown post id). -/
theorem C3_schedule_validation_failure_no_mutation_witness :
    (∃ e, (schedule_post [] 0 1 "2099-01-01" 9 0).outcome = Except.error e) ∧
    (schedule_post [] 0 1 "2099-01-01" 9 0).store = [] :=
  C3_schedule_validation_failure_no_mutation [] 0 1 "2099-01-01" 9 0 (Or.inl (by rfl))

/-- C5: scheduling an existing post whose status is `published` or `failed`
always fails with the invalid-transition error naming the current status, and
a successful `schedule_post` happens only for an existing post in `draft` or
`scheduled` status and then commits exactly the rescheduled post: status
`scheduled`, `scheduled_for` the timestamp composed from (date, hour, minute),
`error_message` cleared, the updated post returned. -/
theorem C5_schedule_transitions
    (store : PostStore) (now post_id : Nat) (date : String) (hour minute : Int)
    (post p2 : Post) :
    ((findPost store post_id = some post ∧
        (post.status = PostStatus.published ∨ post.status = PostStatus.failed)) →
      schedule_post store now post_id date hour minute =
        ⟨store, Except.error (SchedErr.invalidTransition post.status)⟩) ∧
    ((schedule_post store now post_id date hour minute).outcome = Except.ok p2 →
      ∃ post0 ts, findPost store post_id = some post0 ∧
        (post0.status = PostStatus.draft ∨ post0.status = PostStatus.scheduled) ∧
        composeDatetime date hour minute = some ts ∧ now < ts ∧
        p2 = { post0 with scheduled_for := some ts, status := PostStatus.scheduled,
                          error_message := none } ∧
        (schedule_post store now post_id date hour minute).store = updatePost store p2) := by
  constructor
  · rintro ⟨hfind, hbad⟩
    have hcond : post.status ≠ PostStatus.draft ∧ post.status ≠ PostStatus.scheduled := by
      rcases hbad with h | h <;> rw [h] <;> exact ⟨by decide, by decide⟩
    simp only [schedule_post, hfind]
    rw [if_pos hcond]
  · intro hok
    rcases schedule_post_cases store now post_id date hour minute with
      ⟨hs, e, he⟩ | ⟨post0, ts, hfind, hst, hcomp, hfut, heq⟩
    · rw [he] at hok; exact Except.noConfusion hok
    · rw [heq] at hok
      injection hok with h2
      exact ⟨post0, ts, hfind, hst, hcomp, hfut, h2.symm, by rw [heq, h2]⟩

/-- Witness for C5 at concrete inputs: scheduling a published post fails with
the invalid-transition error. -/
theorem C5_schedule_transitions_witness :
    schedule_post [publishedPost] 0 2 "2099-01-01" 9 0 =
      ⟨[publishedPost], Except.error (SchedErr.invalidTransition publishedPost.status)⟩ :=
  (C5_schedule_transitions [publishedPost] 0 2 "2099-01-01" 9 0 publishedPost
    draftPost).1 ⟨by rfl, Or.inl (by decide)⟩

/-- C9: the code slip behind the out-of-range hour/minute contract — for an
existing draft post, hour 24 (or -1) and minute 60 each make the `replace`
call raise `ValueError` inside the date-parsing `try`, so the caller receives
the date-format failure message, never the dedicated hour/minute range
errors; those two exits (lines 162-165 of the source) are unreachable for
every input. -/
theorem C9_out_of_range_hour_minute_gives_date_error :
    (schedule_post [draftPost] 0 1 "2099-01-01" 24 0).outcome =
        Except.error SchedErr.invalidDate ∧
    (schedule_post [draftPost] 0 1 "2099-01-01" (-1) 0).outcome =
        Except.error SchedErr.invalidDate ∧
    (schedule_post [draftPost] 0 1 "2099-01-01" 0 60).outcome =
        Except.error SchedErr.invalidDate ∧
    SchedErr.message SchedErr.invalidDate = "Invalid date format. Use YYYY-MM-DD" ∧
    SchedErr.message SchedErr.hourOutOfRange = "Hour must be between 0-23" ∧
    SchedErr.message SchedErr.minuteOutOfRange = "Minute must be between 0-59" ∧
    (∀ store now post_id date hour minute,
      (schedule_post store now post_id date hour minute).outcome ≠
          Except.error SchedErr.hourOutOfRange ∧
      (schedule_post store now post_id date hour minute).outcome ≠
          Except.error SchedErr.minuteOutOfRange) :=
  ⟨rfl, rfl, rfl, rfl, rfl, rfl,
   fun store now post_id date hour minute =>
     schedule_post_no_range_error store now post_id date hour minute⟩

/-- C10: unscheduling a scheduled post mutates only `status` and
`scheduled_for`: id, title, content, author, `error_message`, `published_at`
and `linkedin_post_id` all survive, the store is updated at just that row —
and `error_message` is cleared only by a later successful `schedule_post`. -/
theorem C10_unschedule_frame
    (store : PostStore) (post_id : Nat) (post p2 q2 : Post)
    (now2 : Nat) (date : String) (hour minute : Int)
    (hfind : findPost store post_id = some post)
    (hsched : post.status = PostStatus.scheduled)
    (hok : (unschedule_post store post_id).outcome = Except.ok p2) :
    p2.status = PostStatus.draft ∧ p2.scheduled_for = none ∧
    p2.id = post.id ∧ p2.title = post.title ∧ p2.content = post.content ∧
    p2.author_id = post.author_id ∧
    p2.error_message = post.error_message ∧
    p2.published_at = post.published_at ∧
    p2.linkedin_post_id = post.linkedin_post_id ∧
    (unschedule_post store post_id).store = updatePost store p2 ∧
    ((schedule_post (unschedule_post store post_id).store now2 post_id date
        hour minute).outcome = Except.ok q2 → q2.error_message = none) := by
  rcases unschedule_post_cases store post_id with ⟨hs, e, he⟩ | ⟨post0, hfind0, hst0, heq⟩
  · rw [he] at hok; exact Except.noConfusion hok
  · rw [hfind0] at hfind
    injection hfind with h1
    subst h1
    rw [heq] at hok
    injection hok with h2
    subst h2
    refine ⟨rfl, rfl, rfl, rfl, rfl, rfl, rfl, rfl, rfl, by rw [heq], ?_⟩
    intro hq
    rcases schedule_post_cases (unschedule_post store post_id).store now2 post_id
        date hour minute with ⟨hs2, e2, he2⟩ | ⟨post3, ts3, hfind3, hst3, hcomp3, hfut3, heq3⟩
    · rw [he2] at hq; exact Except.noConfusion hq
    · rw [heq3] at hq
      injection hq with h3
      rw [← h3]

/-- Witness for C10 at a concrete input: a scheduled post carrying an old
error message is unscheduled; the message survives, and the subsequent
successful reschedule clears it. -/
theorem C10_unschedule_frame_witness :
    unschedDemo.status = PostStatus.draft ∧ unschedDemo.scheduled_for = none ∧
    unschedDemo.id = schedPost.id ∧ unschedDemo.title = schedPost.title ∧
    unschedDemo.content = schedPost.content ∧
    unschedDemo.author_id = schedPost.author_id ∧
    unschedDemo.error_message = schedPost.error_message ∧
    unschedDemo.published_at = schedPost.published_at ∧
    unschedDemo.linkedin_post_id = schedPost.linkedin_post_id ∧
    (unschedule_post [schedPost] 3).store = updatePost [schedPost] unschedDemo ∧
    ((schedule_post (unschedule_post [schedPost] 3).store 0 3 "2099-01-01" 9 0).outcome =
       Except.ok reschedDemo → reschedDemo.error_message = none) :=
  C10_unschedule_frame [schedPost] 3 schedPost unschedDemo reschedDemo
    0 "2099-01-01" 9 0 (by rfl) (by rfl) (by rfl)

/-- C8: if the end-of-cycle commit fails, the whole cycle is rolled back —
the store is exactly the pre-cycle store, so no post processed in the cycle
is marked published — and zero processed is reported. -/
theorem C8_commit_failure_rollback (store : PostStore) (now : Nat) (api : PublishApi) :
    process_due_posts store now api false = (store, 0) :=
  process_due_posts_commit_fail_eq store now api

/-- C2: a due post whose publish call succeeds is stored, after a committed
sweep cycle at time `now`, with status `published`, `published_at` the
cycle's timestamp and the non-empty generated external id. -/
theorem C2_success_publishes
    (store : PostStore) (now : Nat) (api : PublishApi) (i : Nat) (p : Post)
    (hp : store[i]? = some p) (hdue : isDue now p = true)
    (hapi : api p.id p.title p.content = PublishResult.success) :
    (process_due_posts store now api true).1[i]? =
      some { p with status := PostStatus.published,
                    published_at := some now,
                    linkedin_post_id := some (linkedinId p.id now) } ∧
    linkedinId p.id now ≠ "" := by
  have hne := filter_due_not_empty (List.getElem?_mem hp) hdue
  have hrow := process_due_posts_getElem? store now api hp hne
  rw [hrow, sweepStep_success hdue hapi]
  exact ⟨rfl, linkedinId_ne_empty p.id now⟩

/-- Witness for C2 at a concrete input: the due `schedPost` under an
always-succeeding collaborator. -/
theorem C2_success_publishes_witness :
    (process_due_posts [schedPost] 10 alwaysSuccessApi true).1[0]? =
      some { schedPost with status := PostStatus.published,
                            published_at := some 10,
                            linkedin_post_id := some (linkedinId schedPost.id 10) } ∧
    linkedinId schedPost.id 10 ≠ "" :=
  C2_success_publishes [schedPost] 10 alwaysSuccessApi 0 schedPost
    (by rfl) (by decide) (by rfl)

/-- C4: a due post whose publish call returns failure keeps status
`scheduled`, gains exactly the non-empty error message, keeps its
`scheduled_for`, and therefore still satisfies the due-post query at the same
time — it will be picked up again by the next cycle. -/
theorem C4_failure_leaves_due
    (store : PostStore) (now : Nat) (api : PublishApi) (i : Nat) (p : Post)
    (hp : store[i]? = some p) (hdue : isDue now p = true)
    (hapi : api p.id p.title p.content = PublishResult.failure) :
    (process_due_posts store now api true).1[i]? =
      some { p with error_message := some ("Failed to publish to LinkedIn") } ∧
    ({ p with error_message := some ("Failed to publish to LinkedIn") } : Post).status =
      PostStatus.scheduled ∧
    isDue now { p with error_message := some ("Failed to publish to LinkedIn") } = true ∧
    "Failed to publish to LinkedIn" ≠ "" := by
  have hne := filter_due_not_empty (List.getElem?_mem hp) hdue
  have hrow := process_due_posts_getElem? store now api hp hne
  rw [hrow, sweepStep_failure hdue hapi]
  rcases isDue_iff.mp hdue with ⟨hps, t, hpt, hle⟩
  refine ⟨rfl, hps, ?_, by decide⟩
  exact isDue_iff.mpr ⟨hps, t, hpt, hle⟩

/-- Witness for C4 at a concrete input: the due `schedPost` under an
always-failing collaborator. -/
theorem C4_failure_leaves_due_witness :
    (process_due_posts [schedPost] 10 alwaysFailApi true).1[0]? =
      some { schedPost with error_message := some ("Failed to publish to LinkedIn") } ∧
    ({ schedPost with error_message := some ("Failed to publish to LinkedIn") } : Post).status =
      PostStatus.scheduled ∧
    isDue 10 { schedPost with error_message := some ("Failed to publish to LinkedIn") } = true ∧
    "Failed to publish to LinkedIn" ≠ "" :=
  C4_failure_leaves_due [schedPost] 10 alwaysFailApi 0 schedPost
    (by rfl) (by decide) (by rfl)

/-- C6: a sweep cycle never changes a row that is not due — the store keeps
its length, any non-due row is returned unchanged at its position, and if no
row at all is due the cycle is a no-op returning zero processed. -/
theorem C6_sweep_frame
    (store : PostStore) (now : Nat) (api : PublishApi) (commitOk : Bool)
    (i : Nat) (p : Post) (hp : store[i]? = some p) :
    (process_due_posts store now api commitOk).1.length = store.length ∧
    (isDue now p = false → (process_due_posts store now api commitOk).1[i]? = some p) ∧
    (store.all (fun q => !(isDue now q)) = true →
      process_due_posts store now api commitOk = (store, 0)) := by
  refine ⟨?_, ?_, ?_⟩
  · rcases process_due_posts_store_cases store now api commitOk with hs | hs <;> rw [hs]
    exact List.length_map store (sweepStep api now)
  · intro hnd
    rcases process_due_posts_store_cases store now api commitOk with hs | hs <;> rw [hs]
    · exact hp
    · show (store.map (sweepStep api now))[i]? = _
      rw [List.getElem?_map, hp]
      simp [sweepStep_not_due hnd]
  · intro hall
    refine process_due_posts_no_due store now api commitOk (fun q hq => ?_)
    have := List.all_eq_true.mp hall q hq
    simpa using this

/-- Witness for C6 at a concrete input: a store of one draft (non-due) post. -/
theorem C6_sweep_frame_witness :
    (process_due_posts [draftPost] 10 alwaysSuccessApi true).1.length = [draftPost].length ∧
    (isDue 10 draftPost = false →
      (process_due_posts [draftPost] 10 alwaysSuccessApi true).1[0]? = some draftPost) ∧
    ([draftPost].all (fun q => !(isDue 10 q)) = true →
      process_due_posts [draftPost] 10 alwaysSuccessApi true = ([draftPost], 0)) :=
  C6_sweep_frame [draftPost] 10 alwaysSuccessApi true 0 draftPost (by rfl)

/-- C7 is false as stated: with one due post whose publish call raises, the
cycle records the exception text on the post — the post was attempted — yet
returns 0 processed, not 1: the `processed += 1` sits inside the `try` and is
skipped by the exception handler. -/
theorem C7_counterexample :
    (process_due_posts [schedPost] 10 boomApi true).1 =
      [{ schedPost with error_message := some ("boom") }] ∧
    (process_due_posts [schedPost] 10 boomApi true).2 = 0 ∧
    (process_due_posts [schedPost] 10 boomApi true).2 ≠ 1 := by
  exact ⟨rfl, rfl, by decide⟩

/-- C7 (amended): one sweep cycle returns the count of due posts whose
processing completed without an unexpected error — successes and ordinary
publish failures both count, but a post whose publish call raised is
excluded.  The error message is still recorded on that post, and every other
row (before or after it) still receives its own per-post outcome: one post's
failure does not abort the batch. -/
theorem C7_count_skips_errored_posts
    (store : PostStore) (now : Nat) (api : PublishApi) (i j : Nat)
    (p q : Post) (msg : String)
    (hp : store[i]? = some p) (hdue : isDue now p = true)
    (hapi : api p.id p.title p.content = PublishResult.error msg)
    (hq : store[j]? = some q) :
    (process_due_posts store now api true).1[i]? =
      some { p with error_message := some msg } ∧
    (process_due_posts store now api true).1[j]? = some (sweepStep api now q) ∧
    (process_due_posts store now api true).2 =
      ((store.filter (isDue now)).filter (attemptCounted api)).length ∧
    attemptCounted api p = false := by
  have hne := filter_due_not_empty (List.getElem?_mem hp) hdue
  refine ⟨?_, ?_, ?_, ?_⟩
  · rw [process_due_posts_getElem? store now api hp hne, sweepStep_error hdue hapi]
  · exact process_due_posts_getElem? store now api hq hne
  · rw [process_due_posts_run store now api hne]
    exact countProcessed_eq_length_filter api (store.filter (isDue now))
  · simp [attemptCounted, hapi]

/-- Witness for C7 (amended) at a concrete input: one due post whose publish
call raises. -/
theorem C7_count_skips_errored_posts_witness :
    (process_due_posts [schedPost] 10 boomApi true).1[0]? =
      some { schedPost with error_message := some ("boom") } ∧
    (process_due_posts [schedPost] 10 boomApi true).1[0]? =
      some (sweepStep boomApi 10 schedPost) ∧
    (process_due_posts [schedPost] 10 boomApi true).2 =
      (([schedPost].filter (isDue 10)).filter (attemptCounted boomApi)).length ∧
    attemptCounted boomApi schedPost = false :=
  C7_count_skips_errored_posts [schedPost] 10 boomApi 0 0 schedPost schedPost
    ("boom") (by rfl) (by decide) (by rfl) (by rfl)

/-- C1 is false as stated: a store satisfying the invariant, after one sweep
cycle that successfully publishes its due post, holds a `published` post that
still has `scheduled_for` set — the success branch of the sweep never clears
it. -/
theorem C1_counterexample :
    (∀ p ∈ [schedPost], schedInvariant p) ∧
    ¬ (∀ p ∈ (process_due_posts [schedPost] 10 alwaysSuccessApi true).1,
        schedInvariant p) := by
  constructor
  · decide
  · decide

/-- C1 (amended): `scheduled_for ≠ none ↔ status = scheduled` is preserved
for every row by `schedule_post` and by `unschedule_post`; a sweep cycle
preserves only the forward direction — a row still `scheduled` afterwards
still has `scheduled_for` set — because a row it publishes keeps its stale
`scheduled_for` under status `published`. -/
theorem C1_invariant_amended
    (store : PostStore) (now post_id : Nat) (date : String) (hour minute : Int)
    (uid snow : Nat) (api : PublishApi) (commitOk : Bool) (p1 p2 p3 : Post)
    (hinv : ∀ q ∈ store, schedInvariant q)
    (h1 : p1 ∈ (schedule_post store now post_id date hour minute).store)
    (h2 : p2 ∈ (unschedule_post store uid).store)
    (h3 : p3 ∈ (process_due_posts store snow api commitOk).1) :
    schedInvariant p1 ∧ schedInvariant p2 ∧
    (p3.status = PostStatus.scheduled → p3.scheduled_for ≠ none) := by
  refine ⟨?_, ?_, ?_⟩
  · rcases schedule_post_cases store now post_id date hour minute with
      ⟨hs, _, _⟩ | ⟨post, ts, hfind, hst, hcomp, hfut, heq⟩
    · rw [hs] at h1; exact hinv p1 h1
    · rw [heq] at h1
      rcases mem_updatePost h1 with h | h
      · exact hinv p1 h
      · subst h
        constructor
        · intro _; rfl
        · intro _; simp
  · rcases unschedule_post_cases store uid with ⟨hs, _, _⟩ | ⟨post, hfind, hst, heq⟩
    · rw [hs] at h2; exact hinv p2 h2
    · rw [heq] at h2
      rcases mem_updatePost h2 with h | h
      · exact hinv p2 h
      · subst h
        constructor
        · intro hne; exact absurd rfl hne
        · intro hstat; exact absurd hstat (fun h => PostStatus.noConfusion h)
  · rcases process_due_posts_store_cases store snow api commitOk with hs | hs
    · rw [hs] at h3
      exact fun hsc => (hinv p3 h3).mpr hsc
    · rw [hs] at h3
      rcases List.mem_map.mp h3 with ⟨q, hq, hmap⟩
      subst hmap
      exact sweepStep_scheduled_imp (hinv q hq)

/-- Witness for C1 (amended) at a concrete input: a one-draft store run
through all three operations. -/
theorem C1_invariant_amended_witness :
    schedInvariant draftPost ∧ schedInvariant draftPost ∧
    (draftPost.status = PostStatus.scheduled → draftPost.scheduled_for ≠ none) :=
  C1_invariant_amended [draftPost] 0 1 "bad-date" 9 0 1 0 alwaysSuccessApi true
    draftPost draftPost draftPost (by decide) (by decide) (by decide) (by decide)
